import Mathlib

/-!
Verification of the NaturewatchCameraServer camera-control core.

The definitions below are a shallow embedding of
`naturewatch_camera_server/CameraController.py` and
`naturewatch_camera_server/__main__.py`.  Python dictionaries holding the
persisted configuration are modelled as a `Config` structure; the mutable
controller object is modelled as an explicit `CameraState` record that each
setter transforms; the persisted `config.json` file is modelled as a write
log (`persistedWrites`, most recent first); hardware interactions
(`Picamera2.set_controls`, GPIO writes, stream reconfiguration) are counted
by `hwCalls`, and `subprocess` service restarts by `restarts`.  The whole
embedding assumes the picamera module is present (`picamera_exists = True`)
except where the source branches on it in an interesting way (`stop`).
-/

namespace Naturewatch

/-! ## Closest-value resolver (`find_closest_exposure`, `bisect_left`) -/

/-- One step of Python `bisect.bisect_left`'s `while lo < hi` loop, embedded
with explicit fuel (the loop shrinks `hi - lo` every iteration, so
`a.length + 1` fuel always suffices). -/
def bisect_left_loop : Nat → List Int → Int → Nat → Nat → Nat
  | 0, _, _, lo, _ => lo
  | fuel + 1, a, x, lo, hi =>
    if lo < hi then
      let mid := (lo + hi) / 2
      if a.getD mid 0 < x then bisect_left_loop fuel a x (mid + 1) hi
      else bisect_left_loop fuel a x lo mid
    else lo

/-- Python `bisect.bisect_left(a, x)` with the default bounds. -/
def bisect_left (a : List Int) (x : Int) : Nat :=
  bisect_left_loop (a.length + 1) a x 0 a.length

/-- Embeds `CameraController.find_closest_exposure`: source comment says
"If two numbers are equally close, return the smallest number." -/
def find_closest_exposure (ExpList : List Int) (ExpValue : Int) : Int :=
  let pos := bisect_left ExpList ExpValue
  if pos = 0 then
    ExpList.getD 0 0
  else if pos = ExpList.length then
    ExpList.getD (ExpList.length - 1) 0
  else
    let before := ExpList.getD (pos - 1) 0
    let after := ExpList.getD pos 0
    if after - ExpValue < ExpValue - before then after else before

/-- The exposure preset table `ExpList` from `get_MetaData`. -/
def ExpList : List Int :=
  [250, 313, 400, 500, 625, 800, 1000, 1250, 1563, 2000, 2500, 3125,
   4000, 5000, 6250, 8000, 10000, 12500, 16666, 20000, 25000, 33333]

/-! ## Configuration record and the controller state -/

/-- The persisted configuration record (the keys of `config.json` that the
camera controller reads or writes). -/
@[ext]
structure Config where
  resolution : String
  img_width : Int
  img_height : Int
  LED : String
  timestamp : String
  sharpness_mode : String
  sharpness_val : Int
  exposure_mode : String
  shutter_speed : Int
  analogue_gain : Int
  rotate_camera : Int
  frame_rate : Int
  video_duration_before_motion : Int
  video_duration_after_motion : Int
  af_enable : Int
  data_path : String
deriving DecidableEq, Repr

/-- The mutable state of a `CameraController` that the configuration setters
touch.  `persistedWrites` logs every `update_config` file write (most recent
first), `hwCalls` counts hardware interactions (`set_controls`, GPIO output,
stream stop/configure/start), `restarts` counts `systemctl restart` calls. -/
structure CameraState where
  config : Config
  persistedWrites : List Config
  resolution : String
  LED : String
  timestamp : Int
  sharpness_mode : String
  sharpness_val : Int
  exposure_mode : String
  rotated_camera : Bool
  hwCalls : Nat
  restarts : Nat
deriving DecidableEq, Repr

/-- Embeds `CameraController.update_config`: writes `new_config` to the json file
and returns it; the caller stores the result in `self.config`. -/
def update_config (new_config : Config) (s : CameraState) : CameraState :=
  { s with config := new_config, persistedWrites := new_config :: s.persistedWrites }

/-- Embeds `CameraController.set_camera_rotation`.  Guarded: only acts when the
requested rotation differs from the current one; both branches reconfigure
the camera streams and persist `rotate_camera`. -/
def set_camera_rotation (rotation : Bool) (s : CameraState) : CameraState :=
  if s.rotated_camera ≠ rotation then
    let s1 := { s with rotated_camera := rotation, hwCalls := s.hwCalls + 1 }
    if rotation = true then
      update_config { s1.config with rotate_camera := 1 } s1
    else
      update_config { s1.config with rotate_camera := 0 } s1
  else s

/-- Embeds `CameraController.set_exposure`: applies manual exposure controls, flips
the mode to `off`, persists `shutter_speed` and `exposure_mode`.  Note the
`AnalogueGain` argument is sent to the hardware but never written to the
configuration record. -/
def set_exposure (ExposureTime AnalogueGain : Int) (s : CameraState) : CameraState :=
  let s1 := { s with exposure_mode := "off", hwCalls := s.hwCalls + 1 }
  update_config { s1.config with shutter_speed := ExposureTime, exposure_mode := "off" } s1

/-- Embeds `CameraController.auto_exposure`: switches to automatic exposure and
persists `exposure_mode = "auto"`. -/
def auto_exposure (s : CameraState) : CameraState :=
  let s1 := { s with exposure_mode := "auto", hwCalls := s.hwCalls + 1 }
  update_config { s1.config with exposure_mode := "auto" } s1

/-- Embeds `CameraController.set_resolution`.  Guarded: only acts when the requested
resolution differs; persists the resolution triple and restarts the service. -/
def set_resolution (resolution : String) (s : CameraState) : CameraState :=
  if s.resolution ≠ resolution then
    let s1 := { s with resolution := resolution }
    if resolution = "1640x1232" then
      let s2 := update_config
        { s1.config with resolution := "1640x1232", img_height := 1232, img_width := 1640 } s1
      { s2 with restarts := s2.restarts + 1 }
    else
      let s2 := update_config
        { s1.config with resolution := "1920x1080", img_height := 1080, img_width := 1920 } s1
      { s2 with restarts := s2.restarts + 1 }
  else s

/-- Embeds `CameraController.set_LED`.  Guarded: only acts when the requested LED
state differs; drives the GPIO pin and persists the LED state. -/
def set_LED (LED : String) (s : CameraState) : CameraState :=
  if s.LED ≠ LED then
    let s1 := { s with LED := LED, hwCalls := s.hwCalls + 1 }
    if LED = "off" then update_config { s1.config with LED := "off" } s1
    else update_config { s1.config with LED := "on" } s1
  else s

/-- Embeds `CameraController.set_TimestampMode`.  Unguarded: every call sets the
in-memory flag and rewrites the persisted record, even when the requested
mode is already in effect. -/
def set_TimestampMode (timestamp : String) (s : CameraState) : CameraState :=
  if timestamp = "off" then
    update_config { s.config with timestamp := "off" } { s with timestamp := 0 }
  else
    update_config { s.config with timestamp := "on" } { s with timestamp := 1 }

/-- Embeds `CameraController.set_sharpness`.  Unguarded: every call issues a
`set_controls` hardware call and rewrites the persisted record.  In `auto`
mode the local value is pinned to 1 and `self.sharpness_val` is not updated;
in manual mode the attribute is updated to the integer value. -/
def set_sharpness (sharpness_val : Int) (sharpness_mode : String) (s : CameraState) : CameraState :=
  let s1 := { s with sharpness_mode := sharpness_mode }
  let v := if sharpness_mode = "auto" then 1 else sharpness_val
  let s2 := if sharpness_mode = "auto" then s1 else { s1 with sharpness_val := sharpness_val }
  let s3 := { s2 with hwCalls := s2.hwCalls + 1 }
  update_config { s3.config with sharpness_val := v, sharpness_mode := sharpness_mode } s3

/-- One configuration-store setter invocation (the setters listed in the
specification of the Configuration Store). -/
inductive SetterCall
  | rotation (r : Bool)
  | exposure (t g : Int)
  | autoExposure
  | resolution (r : String)
  | led (v : String)
  | timestampMode (v : String)
  | sharpness (v : Int) (m : String)
deriving DecidableEq, Repr

/-- Dispatch a setter call on the controller state. -/
def apply_setter : SetterCall → CameraState → CameraState
  | .rotation r, s => set_camera_rotation r s
  | .exposure t g, s => set_exposure t g s
  | .autoExposure, s => auto_exposure s
  | .resolution r, s => set_resolution r s
  | .led v, s => set_LED v s
  | .timestampMode v, s => set_TimestampMode v s
  | .sharpness v m, s => set_sharpness v m s

/-! ## `stop` (thread shutdown) -/

/-- Controller state relevant to `CameraController.stop`: the stop event
flag, the camera handle (`self.camera`, `none` once cleared), and counters
for the teardown calls made on the handle. -/
structure StopState where
  stopFlagSet : Bool
  camera : Option Unit
  encoderStops : Nat
  cameraStops : Nat
  cameraCloses : Nat
deriving DecidableEq, Repr

/-- Embeds `CameraController.stop`.  Python sets the stop event first; then, when
the picamera module is present, it calls `self.camera.stop_encoder()` — an
attribute access on `self.camera`, which raises when the handle is already
`None` (it was cleared by a previous `stop`).  The second component is the
raised error, `none` on normal return. -/
def stop (picamera_exists : Bool) (s : StopState) : StopState × Option String :=
  let s1 := { s with stopFlagSet := true }
  if picamera_exists then
    match s1.camera with
    | none => (s1, some "AttributeError: NoneType has no attribute stop_encoder")
    | some _ =>
      ({ s1 with camera := none,
                 encoderStops := s1.encoderStops + 1,
                 cameraStops := s1.cameraStops + 1,
                 cameraCloses := s1.cameraCloses + 1 }, none)
  else (s1, none)

/-! ## The capture loop (`run`) -/

/-- What happens when the loop body asks the camera for a lores frame:
either a frame arrives and colour conversion succeeds, or an exception is
raised during capture/conversion, or a `KeyboardInterrupt` arrives. -/
inductive PullEvent
  | frame (img : Int)
  | exc
  | keyboard
deriving DecidableEq, Repr

/-- The environment of one loop iteration: whether `stop()` has set the
stop event before the iteration, what the frame pull does, and whether a
fault-triggered `initialise_picamera` would succeed. -/
structure LoopEnv where
  stopRequested : Bool
  pull : PullEvent
  reinitOk : Bool
deriving DecidableEq, Repr

/-- Capture-loop state: the published preview frame (frame id paired with
whether the timestamp overlay was stamped on it), the timestamp mode, a
session generation counter (bumped by `initialise_picamera`), and the count
of logged picamera errors. -/
structure LoopState where
  image : Option (Int × Bool)
  timestamp : Int
  sessionGen : Nat
  errorsLogged : Nat
deriving DecidableEq, Repr

/-- Result of one iteration of the `while` body of `CameraController.run`. -/
inductive IterResult
  | next (s : LoopState)
  | crashed (err : String) (s : LoopState)
deriving DecidableEq, Repr

/-- One iteration of the body of `CameraController.run` (picamera present).
A successful pull converts and publishes the frame, stamping it when
`self.timestamp == 1` (the `if self.image is None` warning branch is
unreachable after the assignment and is omitted).  An exception during
pull/convert is caught by `except Exception`: it is logged and
`initialise_picamera()` is re-run — but an exception raised by that
reinitialisation escapes the handler and propagates out of `run`.  A
`KeyboardInterrupt` reaches the outer handler, whose body `self.logger.i`
is an invalid attribute access and itself raises. -/
def run_iteration (e : LoopEnv) (s : LoopState) : IterResult :=
  match e.pull with
  | .frame img => .next { s with image := some (img, s.timestamp = 1) }
  | .exc =>
    if e.reinitOk then
      .next { s with errorsLogged := s.errorsLogged + 1, sessionGen := s.sessionGen + 1 }
    else
      .crashed "exception raised inside initialise_picamera"
        { s with errorsLogged := s.errorsLogged + 1 }
  | .keyboard => .crashed "AttributeError: Logger has no attribute i" s

/-- Outcome of running the `while not self.is_stopped()` loop over a finite
trace of iteration environments. -/
inductive RunResult
  | stopped (s : LoopState)
  | alive (s : LoopState)
  | crashed (err : String) (s : LoopState)
deriving DecidableEq, Repr

/-- Embeds `CameraController.run` over a finite trace: the loop exits normally only
when the stop event is observed; otherwise it executes iterations until the
trace is exhausted (`alive`) or an iteration raises out of the loop. -/
def run_loop : List LoopEnv → LoopState → RunResult
  | [], s => .alive s
  | e :: rest, s =>
    if e.stopRequested then .stopped s
    else
      match run_iteration e s with
      | .next s1 => run_loop rest s1
      | .crashed err s1 => .crashed err s1

/-! ## `run_autofocus` -/

/-- The `while not success and i < 5` wait loop of `run_autofocus`,
embedded with fuel (6 suffices since `i` starts at 0 and the guard bounds
it by 5); returns the final `i`, which equals the number of 1-second
sleeps performed. -/
def af_wait_loop (success : Bool) : Nat → Nat → Nat
  | 0, i => i
  | fuel + 1, i => if ¬success ∧ i < 5 then af_wait_loop success fuel (i + 1) else i

/-- Observable outcome of `CameraController.run_autofocus`: whether an
autofocus cycle was triggered, how many 1-second sleeps were performed, and
the logged report (`some true` = completed successfully, `some false` =
timed out, `none` = autofocus not enabled, nothing done). -/
structure AFResult where
  cycleTriggered : Bool
  sleeps : Nat
  report : Option Bool
deriving DecidableEq, Repr

/-- Embeds `CameraController.run_autofocus`: when `self.af_enabled` it triggers one
`autofocus_cycle()` (modelled by its boolean result `cycleSuccess`), waits
while unsuccessful up to 5 times, then logs success or timeout. -/
def run_autofocus (af_enabled : Bool) (cycleSuccess : Bool) : AFResult :=
  if af_enabled = true then
    let success := cycleSuccess
    let i := af_wait_loop success 6 0
    { cycleTriggered := true, sleeps := i, report := some success }
  else
    { cycleTriggered := false, sleeps := 0, report := none }

/-! ## Circular video buffer size -/

/-- Python `int(...)` on a number: truncation toward zero. -/
def pyInt (q : ℚ) : Int := if 0 ≤ q then ⌊q⌋ else ⌈q⌉

/-- The `CircularOutput` buffer size computed in `CameraController.__init__`:
`int(frame_rate * (video_duration_before_motion + video_duration_after_motion + 0.5))`. -/
def video_buffer_size (frame_rate video_duration_before_motion video_duration_after_motion : ℚ) : Int :=
  pyInt (frame_rate * (video_duration_before_motion + video_duration_after_motion + 0.5))

/-! ## Startup error classification (`__main__.py`) -/

/-- Kind of a Python exception value in the startup handler. -/
inductive ExcKind
  | generic
  | cameraNotFound
deriving DecidableEq, Repr

/-- A Python exception as seen by the startup handler: its kind and the
result of `str(e)`. -/
structure PyExc where
  kind : ExcKind
  message : String
deriving DecidableEq, Repr

/-- The source calls `isinstance(e)` — `isinstance` with a single argument —
which Python rejects with a `TypeError` before evaluating anything else. -/
def isinstance_one_arg (e : PyExc) : Except String Bool :=
  .error "TypeError: isinstance expected 2 arguments, got 1"

/-- The message of the `CameraNotFoundException` built by the handler. -/
def camera_not_found_message : String :=
  "Unable to access camera. Is the cable properly connected?"

/-- Python truthiness of the string returned by `is_camera_enabled` (the
stripped stdout of `grep -c "0 : imx"`): any non-empty string is truthy. -/
def py_truthy (s : String) : Bool := s ≠ ""

/-- The `except Exception as e:` handler of `__main__.py`: evaluate
`isinstance(e) and "Camera is not enabled" in str(e)`; when true and the
camera-enabled probe is truthy, replace `e` by a `CameraNotFoundException`;
finally build the error app from `e`.  An error in the classification
propagates uncaught (the result is `.error`). -/
def handle_startup_exception (e : PyExc) (probe_output : String) : Except String PyExc := do
  let c ← isinstance_one_arg e
  let e2 :=
    if c && decide ("Camera is not enabled".toList <:+: e.message.toList) then
      if py_truthy probe_output then
        { kind := ExcKind.cameraNotFound, message := camera_not_found_message }
      else e
    else e
  pure e2

/-! ## Preview frame access (`get_md_image`, `get_image_binary`) -/

/-- A heap of pixel buffers (address = index) together with the
`self.image` slot, which holds the address of the live preview frame or
`None` before any frame has been published. -/
structure FrameMem where
  bufs : List (List Int)
  slot : Option Nat
deriving DecidableEq, Repr

/-- Read the buffer at an address. -/
def readBuf (m : FrameMem) (a : Nat) : List Int := m.bufs.getD a []

/-- Mutate one pixel of the buffer at an address (models a caller writing
into a returned numpy array). -/
def writeBuf (m : FrameMem) (a : Nat) (k : Nat) (v : Int) : FrameMem :=
  { m with bufs := m.bufs.set a ((m.bufs.getD a []).set k v) }

/-- Embeds `CameraController.get_md_image`: if `self.image is not None`, return
`self.image.copy()` — a fresh buffer with the same contents, allocated at a
fresh address; otherwise fall through and return `None`. -/
def get_md_image (m : FrameMem) : Option Nat × FrameMem :=
  match m.slot with
  | some i => (some m.bufs.length, { m with bufs := m.bufs ++ [m.bufs.getD i []] })
  | none => (none, m)

/-- Embeds `cv2.imencode(".jpg", img)`: raises when handed `None` instead of an
image; otherwise returns the encoded bytes (content abstracted as the pixel
list). -/
def imencode (img : Option (List Int)) : Except String (List Int) :=
  match img with
  | none => .error "cv2.error: imencode received an empty input"
  | some px => .ok px

/-- Embeds `CameraController.get_image_binary`: encodes the result of
`get_md_image`. -/
def get_image_binary (m : FrameMem) : Except String (List Int) × FrameMem :=
  let r := get_md_image m
  (imencode (r.1.map (readBuf r.2)), r.2)

/-- A concrete configuration record used by concrete-input theorems. -/
def ex_config : Config :=
  { resolution := "1920x1080", img_width := 1920, img_height := 1080,
    LED := "on", timestamp := "on", sharpness_mode := "manual",
    sharpness_val := 2, exposure_mode := "auto", shutter_speed := 1000,
    analogue_gain := 4, rotate_camera := 0, frame_rate := 20,
    video_duration_before_motion := 5, video_duration_after_motion := 3,
    af_enable := 0, data_path := "data" }

/-- A concrete controller state whose in-memory record matches the last
persisted write, with the timestamp overlay currently enabled. -/
def ex_state : CameraState :=
  { config := ex_config, persistedWrites := [ex_config],
    resolution := "1920x1080", LED := "on", timestamp := 1,
    sharpness_mode := "manual", sharpness_val := 2, exposure_mode := "auto",
    rotated_camera := false, hwCalls := 0, restarts := 0 }

/-- A concrete pre-stop controller state: camera open, nothing torn down. -/
def ex_stop_state : StopState :=
  { stopFlagSet := false, camera := some (), encoderStops := 0,
    cameraStops := 0, cameraCloses := 0 }

/-- A concrete capture-loop state. -/
def ex_loop_state : LoopState :=
  { image := none, timestamp := 0, sessionGen := 1, errorsLogged := 0 }

/-- A loop iteration where the frame pull raises and the recovery
reinitialisation raises as well. -/
def ex_crash_env : LoopEnv :=
  { stopRequested := false, pull := PullEvent.exc, reinitOk := false }

/-- A loop iteration where the frame pull raises and the recovery
reinitialisation succeeds. -/
def ex_recover_env : LoopEnv :=
  { stopRequested := false, pull := PullEvent.exc, reinitOk := true }

/-- A concrete frame memory with one published preview frame. -/
def ex_frame_mem : FrameMem :=
  { bufs := [[7, 8, 9]], slot := some 0 }

/-- A concrete frame memory before any frame has been published. -/
def ex_empty_mem : FrameMem :=
  { bufs := [], slot := none }

/-! ## List access helper lemmas -/

theorem getD_eq_get {α : Type} (d : α) :
    ∀ (l : List α) (n : Nat) (h : n < l.length), l.getD n d = l.get ⟨n, h⟩
  | _ :: _, 0, _ => rfl
  | _ :: l, n + 1, h => getD_eq_get d l n (Nat.lt_of_succ_lt_succ h)

theorem getD_mem {α : Type} (d : α) (l : List α) (n : Nat) (h : n < l.length) :
    l.getD n d ∈ l := by
  rw [getD_eq_get d l n h]
  exact List.get_mem l n h

theorem exists_getD_of_mem {α : Type} (d : α) (l : List α) (y : α) (hy : y ∈ l) :
    ∃ n, n < l.length ∧ l.getD n d = y := by
  obtain ⟨⟨n, hn⟩, rfl⟩ := List.mem_iff_get.mp hy
  exact ⟨n, hn, getD_eq_get d l n hn⟩

theorem sorted_getD_lt (l : List Int) (hs : l.Pairwise (· < ·)) {i j : Nat}
    (hij : i < j) (hj : j < l.length) : l.getD i 0 < l.getD j 0 := by
  have hi : i < l.length := hij.trans hj
  rw [getD_eq_get 0 l i hi, getD_eq_get 0 l j hj]
  exact List.pairwise_iff_get.mp hs ⟨i, hi⟩ ⟨j, hj⟩ hij

theorem sorted_getD_le (l : List Int) (hs : l.Pairwise (· < ·)) {i j : Nat}
    (hij : i ≤ j) (hj : j < l.length) : l.getD i 0 ≤ l.getD j 0 := by
  rcases Nat.lt_or_ge i j with h | h
  · exact le_of_lt (sorted_getD_lt l hs h hj)
  · have heq : i = j := le_antisymm hij h
    rw [heq]

theorem abs_sub_ite (a b : Int) : |a - b| = if a ≤ b then b - a else a - b := by
  split_ifs with h
  · rw [abs_of_nonpos (by omega)]; ring
  · exact abs_of_nonneg (by omega)

theorem getD_append_length {α : Type} (l : List α) (x d : α) :
    (l ++ [x]).getD l.length d = x := by
  induction l with
  | nil => rfl
  | cons a t ih => exact ih

theorem getD_append_of_lt {α : Type} (l : List α) (x d : α) (i : Nat) (h : i < l.length) :
    (l ++ [x]).getD i d = l.getD i d := by
  induction l generalizing i with
  | nil => simp at h
  | cons a t ih =>
    cases i with
    | zero => rfl
    | succ n => exact ih n (by simpa using h)

theorem getD_set_of_ne {α : Type} (l : List α) (a i : Nat) (y d : α) (h : a ≠ i) :
    (l.set a y).getD i d = l.getD i d := by
  induction l generalizing a i with
  | nil => rfl
  | cons b t ih =>
    cases a with
    | zero =>
      cases i with
      | zero => exact absurd rfl h
      | succ n => rfl
    | succ m =>
      cases i with
      | zero => rfl
      | succ n => exact ih m n (by omega)

/-! ## Correctness of the closest-value resolver -/

theorem bisect_left_loop_spec (a : List Int) (x : Int) (hs : a.Pairwise (· < ·)) :
    ∀ (fuel lo hi : Nat), hi - lo < fuel → hi ≤ a.length → lo ≤ hi →
      (∀ i, i < lo → a.getD i 0 < x) →
      (∀ i, hi ≤ i → i < a.length → x ≤ a.getD i 0) →
      lo ≤ bisect_left_loop fuel a x lo hi ∧
      bisect_left_loop fuel a x lo hi ≤ hi ∧
      (∀ i, i < bisect_left_loop fuel a x lo hi → a.getD i 0 < x) ∧
      (∀ i, bisect_left_loop fuel a x lo hi ≤ i → i < a.length → x ≤ a.getD i 0) := by
  intro fuel
  induction fuel with
  | zero => intro lo hi hfuel _ _ _ _; omega
  | succ fuel ih =>
    intro lo hi hfuel hlen hlohi hbelow habove
    by_cases hlt : lo < hi
    · have hmidlo : lo ≤ (lo + hi) / 2 := by omega
      have hmidhi : (lo + hi) / 2 < hi := by omega
      have hmidlen : (lo + hi) / 2 < a.length := lt_of_lt_of_le hmidhi hlen
      by_cases hcmp : a.getD ((lo + hi) / 2) 0 < x
      · have hbelow2 : ∀ i, i < (lo + hi) / 2 + 1 → a.getD i 0 < x := by
          intro i hi2
          rcases Nat.lt_or_ge i ((lo + hi) / 2) with hc | hc
          · exact lt_trans (sorted_getD_lt a hs hc hmidlen) hcmp
          · have : i = (lo + hi) / 2 := by omega
            rw [this]; exact hcmp
        obtain ⟨h1, h2, h3, h4⟩ :=
          ih ((lo + hi) / 2 + 1) hi (by omega) hlen (by omega) hbelow2 habove
        have heq : bisect_left_loop (fuel + 1) a x lo hi
            = bisect_left_loop fuel a x ((lo + hi) / 2 + 1) hi := by
          simp only [bisect_left_loop]
          rw [if_pos hlt, if_pos hcmp]
        rw [heq]
        exact ⟨by omega, h2, h3, h4⟩
      · have habove2 : ∀ i, (lo + hi) / 2 ≤ i → i < a.length → x ≤ a.getD i 0 := by
          intro i h1 h2
          rcases Nat.lt_or_ge ((lo + hi) / 2) i with hc | hc
          · exact le_trans (not_lt.mp hcmp) (le_of_lt (sorted_getD_lt a hs hc h2))
          · have : i = (lo + hi) / 2 := by omega
            rw [this]; exact not_lt.mp hcmp
        obtain ⟨h1, h2, h3, h4⟩ :=
          ih lo ((lo + hi) / 2) (by omega) (by omega) (by omega) hbelow habove2
        have heq : bisect_left_loop (fuel + 1) a x lo hi
            = bisect_left_loop fuel a x lo ((lo + hi) / 2) := by
          simp only [bisect_left_loop]
          rw [if_pos hlt, if_neg hcmp]
        rw [heq]
        exact ⟨h1, by omega, h3, h4⟩
    · have heq : bisect_left_loop (fuel + 1) a x lo hi = lo := by
        simp only [bisect_left_loop]
        rw [if_neg hlt]
      rw [heq]
      exact ⟨le_refl _, by omega, hbelow, fun i h1 h2 => habove i (by omega) h2⟩

theorem bisect_left_spec (a : List Int) (x : Int) (hs : a.Pairwise (· < ·)) :
    bisect_left a x ≤ a.length ∧
    (∀ i, i < bisect_left a x → a.getD i 0 < x) ∧
    (∀ i, bisect_left a x ≤ i → i < a.length → x ≤ a.getD i 0) := by
  obtain ⟨h1, h2, h3, h4⟩ :=
    bisect_left_loop_spec a x hs (a.length + 1) 0 a.length (by omega) (le_refl _)
      (Nat.zero_le _) (fun i hcontra => absurd hcontra (Nat.not_lt_zero i))
      (fun i hle hlt => absurd (lt_of_le_of_lt hle hlt) (lt_irrefl _))
  exact ⟨h2, h3, h4⟩

theorem find_closest_eq (L : List Int) (V : Int) :
    find_closest_exposure L V =
      if bisect_left L V = 0 then L.getD 0 0
      else if bisect_left L V = L.length then L.getD (L.length - 1) 0
      else if L.getD (bisect_left L V) 0 - V < V - L.getD (bisect_left L V - 1) 0
        then L.getD (bisect_left L V) 0
        else L.getD (bisect_left L V - 1) 0 := rfl

/-- Claim C2: for every ascending non-empty integer list and every query,
`find_closest_exposure` returns a member of the list; a query below the
first element returns the first element; a query above the last element
returns the last element; otherwise the returned member has minimal
absolute distance to the query among all members, and any equidistant
member is at least the returned one (ties break toward the smaller
candidate). -/
theorem find_closest_exposure_correct (L : List Int) (V : Int)
    (hne : L ≠ []) (hs : L.Pairwise (· < ·)) :
    find_closest_exposure L V ∈ L ∧
    (∀ y ∈ L, |find_closest_exposure L V - V| ≤ |y - V|) ∧
    (∀ y ∈ L, |y - V| = |find_closest_exposure L V - V| → find_closest_exposure L V ≤ y) ∧
    (V < L.getD 0 0 → find_closest_exposure L V = L.getD 0 0) ∧
    (L.getD (L.length - 1) 0 < V → find_closest_exposure L V = L.getD (L.length - 1) 0) := by
  have hlen : 0 < L.length := List.length_pos.mpr hne
  obtain ⟨hble, hblt, hbge⟩ := bisect_left_spec L V hs
  by_cases h0 : bisect_left L V = 0
  · have hres : find_closest_exposure L V = L.getD 0 0 := by
      rw [find_closest_eq, if_pos h0]
    refine ⟨?_, ?_, ?_, fun _ => hres, ?_⟩
    · rw [hres]; exact getD_mem 0 L 0 hlen
    · intro y hy
      obtain ⟨i, hiL, rfl⟩ := exists_getD_of_mem 0 L y hy
      have h1 : V ≤ L.getD i 0 := hbge i (by omega) hiL
      have h2 : L.getD 0 0 ≤ L.getD i 0 := sorted_getD_le L hs (Nat.zero_le i) hiL
      have h3 : V ≤ L.getD 0 0 := hbge 0 (by omega) hlen
      rw [hres, abs_sub_ite, abs_sub_ite]
      split_ifs <;> omega
    · intro y hy _
      obtain ⟨i, hiL, rfl⟩ := exists_getD_of_mem 0 L y hy
      rw [hres]
      exact sorted_getD_le L hs (Nat.zero_le i) hiL
    · intro hlast
      have hcontra : V ≤ L.getD (L.length - 1) 0 := hbge (L.length - 1) (by omega) (by omega)
      omega
  · by_cases hN : bisect_left L V = L.length
    · have hres : find_closest_exposure L V = L.getD (L.length - 1) 0 := by
        rw [find_closest_eq, if_neg h0, if_pos hN]
      have hlast : L.getD (L.length - 1) 0 < V := hblt (L.length - 1) (by omega)
      refine ⟨?_, ?_, ?_, ?_, fun _ => hres⟩
      · rw [hres]; exact getD_mem 0 L (L.length - 1) (by omega)
      · intro y hy
        obtain ⟨i, hiL, rfl⟩ := exists_getD_of_mem 0 L y hy
        have h1 : L.getD i 0 < V := hblt i (by omega)
        have h2 : L.getD i 0 ≤ L.getD (L.length - 1) 0 := sorted_getD_le L hs (by omega) (by omega)
        rw [hres, abs_sub_ite, abs_sub_ite]
        split_ifs <;> omega
      · intro y hy hy2
        obtain ⟨i, hiL, rfl⟩ := exists_getD_of_mem 0 L y hy
        have h1 : L.getD i 0 < V := hblt i (by omega)
        have h2 : L.getD i 0 ≤ L.getD (L.length - 1) 0 := sorted_getD_le L hs (by omega) (by omega)
        rw [hres] at hy2 ⊢
        rw [abs_sub_ite, abs_sub_ite] at hy2
        split_ifs at hy2 <;> omega
      · intro hfirst
        have hcontra : L.getD 0 0 < V := hblt 0 (by omega)
        omega
    · have hplen : bisect_left L V < L.length := by omega
      have hppos : 0 < bisect_left L V := by omega
      have hbf : L.getD (bisect_left L V - 1) 0 < V := hblt (bisect_left L V - 1) (by omega)
      have haf : V ≤ L.getD (bisect_left L V) 0 := hbge (bisect_left L V) (le_refl _) hplen
      have hba : L.getD (bisect_left L V - 1) 0 < L.getD (bisect_left L V) 0 :=
        sorted_getD_lt L hs (by omega) hplen
      have hres : find_closest_exposure L V =
          if L.getD (bisect_left L V) 0 - V < V - L.getD (bisect_left L V - 1) 0
          then L.getD (bisect_left L V) 0 else L.getD (bisect_left L V - 1) 0 := by
        rw [find_closest_eq, if_neg h0, if_neg hN]
      refine ⟨?_, ?_, ?_, ?_, ?_⟩
      · rw [hres]; split_ifs
        · exact getD_mem 0 L _ hplen
        · exact getD_mem 0 L _ (by omega)
      · intro y hy
        obtain ⟨i, hiL, rfl⟩ := exists_getD_of_mem 0 L y hy
        rw [hres, abs_sub_ite, abs_sub_ite]
        rcases Nat.lt_or_ge i (bisect_left L V) with hcase | hcase
        · have h1 : L.getD i 0 ≤ L.getD (bisect_left L V - 1) 0 :=
            sorted_getD_le L hs (by omega) (by omega)
          have h2 : L.getD i 0 < V := hblt i hcase
          split_ifs <;> omega
        · have h1 : L.getD (bisect_left L V) 0 ≤ L.getD i 0 :=
            sorted_getD_le L hs hcase hiL
          split_ifs <;> omega
      · intro y hy hy2
        obtain ⟨i, hiL, rfl⟩ := exists_getD_of_mem 0 L y hy
        rw [hres] at hy2 ⊢
        rw [abs_sub_ite, abs_sub_ite] at hy2
        rcases Nat.lt_or_ge i (bisect_left L V) with hcase | hcase
        · have h1 : L.getD i 0 ≤ L.getD (bisect_left L V - 1) 0 :=
            sorted_getD_le L hs (by omega) (by omega)
          have h2 : L.getD i 0 < V := hblt i hcase
          split_ifs at hy2 ⊢ <;> omega
        · have h1 : L.getD (bisect_left L V) 0 ≤ L.getD i 0 :=
            sorted_getD_le L hs hcase hiL
          split_ifs at hy2 ⊢ <;> omega
      · intro hfirst
        have hcontra : L.getD 0 0 < V := hblt 0 hppos
        omega
      · intro hlastV
        have h1 : L.getD (bisect_left L V) 0 ≤ L.getD (L.length - 1) 0 :=
          sorted_getD_le L hs (by omega) (by omega)
        omega

/-- Witness for the resolver theorem: the tie example from the spec, list
`[100, 200]` and query `150`, equidistant from both members; the smaller,
100, is returned. -/
theorem find_closest_exposure_correct_witness :
    (([100, 200] : List Int) ≠ [] ∧ ([100, 200] : List Int).Pairwise (· < ·)) ∧
    (find_closest_exposure [100, 200] 150 ∈ ([100, 200] : List Int) ∧
     (∀ y ∈ ([100, 200] : List Int), |find_closest_exposure [100, 200] 150 - 150| ≤ |y - 150|) ∧
     (∀ y ∈ ([100, 200] : List Int),
        |y - 150| = |find_closest_exposure [100, 200] 150 - 150| →
        find_closest_exposure [100, 200] 150 ≤ y) ∧
     ((150 : Int) < ([100, 200] : List Int).getD 0 0 →
        find_closest_exposure [100, 200] 150 = ([100, 200] : List Int).getD 0 0) ∧
     (([100, 200] : List Int).getD (([100, 200] : List Int).length - 1) 0 < 150 →
        find_closest_exposure [100, 200] 150
          = ([100, 200] : List Int).getD (([100, 200] : List Int).length - 1) 0)) :=
  ⟨⟨by decide, by decide⟩, find_closest_exposure_correct [100, 200] 150 (by decide) (by decide)⟩

/-! ## Configuration store invariants -/

/-- Claim C1: after any configuration-store setter returns, the most
recently persisted configuration record is value-equal to the in-memory
record held by the controller (assuming the two agreed beforehand, as they
do at startup and after every previous setter). -/
theorem setter_persists_in_memory (c : SetterCall) (s : CameraState)
    (h : s.persistedWrites.head? = some s.config) :
    (apply_setter c s).persistedWrites.head? = some (apply_setter c s).config := by
  cases c <;>
    simp only [apply_setter, set_camera_rotation, set_exposure, auto_exposure, set_resolution,
      set_LED, set_TimestampMode, set_sharpness, update_config] <;>
    (try split_ifs) <;>
    simp [h]

/-- Witness for the persistence invariant at a concrete state and setter. -/
theorem setter_persists_in_memory_witness :
    ex_state.persistedWrites.head? = some ex_state.config ∧
    (apply_setter (SetterCall.sharpness 3 "manual") ex_state).persistedWrites.head?
      = some (apply_setter (SetterCall.sharpness 3 "manual") ex_state).config :=
  ⟨by decide, setter_persists_in_memory (SetterCall.sharpness 3 "manual") ex_state (by decide)⟩

/-- Counterexample to claim C3: in a state whose timestamp overlay is
already on and whose sharpness is already 2/manual, calling
`set_TimestampMode "on"` rewrites the persisted record, and calling
`set_sharpness 2 "manual"` rewrites the persisted record and issues a
hardware call — neither is a no-op. -/
theorem setter_noop_counterexample :
    ex_state.timestamp = 1 ∧ ex_state.config.timestamp = "on" ∧
    (set_TimestampMode "on" ex_state).persistedWrites.length
      = ex_state.persistedWrites.length + 1 ∧
    ex_state.sharpness_val = 2 ∧ ex_state.sharpness_mode = "manual" ∧
    ex_state.config.sharpness_val = 2 ∧ ex_state.config.sharpness_mode = "manual" ∧
    (set_sharpness 2 "manual" ex_state).persistedWrites.length
      = ex_state.persistedWrites.length + 1 ∧
    (set_sharpness 2 "manual" ex_state).hwCalls = ex_state.hwCalls + 1 := by
  decide

/-- Claim C3 as amended: the guarded setters (`set_camera_rotation`,
`set_resolution`, `set_LED`) are no-ops when called with the
currently-effective value; `set_TimestampMode` and `set_sharpness` leave the
in-memory values unchanged when called with the current values but
unconditionally rewrite the persisted record, and `set_sharpness`
unconditionally issues a hardware call. -/
theorem setter_noop_amended (s : CameraState) (r : Bool) (res led : String) :
    (s.rotated_camera = r → set_camera_rotation r s = s) ∧
    (s.resolution = res → set_resolution res s = s) ∧
    (s.LED = led → set_LED led s = s) ∧
    (∀ t, (set_TimestampMode t s).persistedWrites.length = s.persistedWrites.length + 1) ∧
    (∀ v m, (set_sharpness v m s).persistedWrites.length = s.persistedWrites.length + 1) ∧
    (∀ v m, (set_sharpness v m s).hwCalls = s.hwCalls + 1) ∧
    (s.config.timestamp = "on" → s.timestamp = 1 →
      (set_TimestampMode "on" s).config = s.config ∧
      (set_TimestampMode "on" s).timestamp = s.timestamp) := by
  refine ⟨?_, ?_, ?_, ?_, ?_, ?_, ?_⟩
  · intro h; simp [set_camera_rotation, h]
  · intro h; simp [set_resolution, h]
  · intro h; simp [set_LED, h]
  · intro t
    by_cases ht : t = "off" <;> simp [set_TimestampMode, ht, update_config]
  · intro v m
    by_cases hm : m = "auto" <;> simp [set_sharpness, hm, update_config]
  · intro v m
    by_cases hm : m = "auto" <;> simp [set_sharpness, hm, update_config]
  · intro hcfg hts
    constructor
    · simp only [set_TimestampMode, update_config]
      rw [if_neg (by decide)]
      apply Config.ext <;> simp [hcfg]
    · simp only [set_TimestampMode, update_config]
      rw [if_neg (by decide)]
      simp [hts]

/-- Witness for the amended no-op claim at a concrete state. -/
theorem setter_noop_amended_witness :
    ex_state.rotated_camera = false ∧
    set_camera_rotation false ex_state = ex_state ∧
    ex_state.config.timestamp = "on" ∧ ex_state.timestamp = 1 ∧
    ((set_TimestampMode "on" ex_state).config = ex_state.config ∧
     (set_TimestampMode "on" ex_state).timestamp = ex_state.timestamp) :=
  ⟨by decide,
   (setter_noop_amended ex_state false ex_state.resolution ex_state.LED).1 (by decide),
   by decide, by decide,
   (setter_noop_amended ex_state false ex_state.resolution ex_state.LED).2.2.2.2.2.2
     (by decide) (by decide)⟩

/-- Claim C10: `set_exposure(ExposureTime, AnalogueGain)` persists a record
whose `shutter_speed` equals the requested exposure time and whose
`exposure_mode` is `"off"`, while `analogue_gain` — and every other field —
keeps its previous value, whatever the `AnalogueGain` argument was. -/
theorem set_exposure_frame_effect (s : CameraState) (t g : Int) :
    (set_exposure t g s).config
      = { s.config with shutter_speed := t, exposure_mode := "off" } ∧
    (set_exposure t g s).persistedWrites
      = { s.config with shutter_speed := t, exposure_mode := "off" } :: s.persistedWrites ∧
    (set_exposure t g s).config.analogue_gain = s.config.analogue_gain :=
  ⟨rfl, rfl, rfl⟩

/-! ## `stop` idempotence -/

/-- Counterexample to claim C4: from a freshly initialised controller with
the camera module present, the first `stop()` succeeds but the second
raises (attribute access on the cleared handle), so a repeated `stop()` is
not error-free. -/
theorem stop_twice_counterexample :
    (stop true ex_stop_state).2 = none ∧
    (stop true (stop true ex_stop_state).1).2
      = some "AttributeError: NoneType has no attribute stop_encoder" := by
  decide

/-- Claim C4 as amended: with the camera module present, a first `stop()`
from a state holding an open camera sets the stop flag, releases the
session exactly once and returns without error; a second `stop()` keeps
the flag set and does not release the session again, but raises an
attribute error instead of returning silently. -/
theorem stop_twice_amended (s : StopState) (h : s.camera.isSome = true) :
    (stop true s).2 = none ∧
    (stop true s).1.stopFlagSet = true ∧
    (stop true s).1.cameraCloses = s.cameraCloses + 1 ∧
    (stop true s).1.camera = none ∧
    (stop true (stop true s).1).2.isSome = true ∧
    (stop true (stop true s).1).1.stopFlagSet = true ∧
    (stop true (stop true s).1).1.cameraCloses = s.cameraCloses + 1 := by
  obtain ⟨u, hu⟩ := Option.isSome_iff_exists.mp h
  simp [stop, hu]

/-- Witness for the amended stop claim at the concrete initial state. -/
theorem stop_twice_amended_witness :
    ex_stop_state.camera.isSome = true ∧
    ((stop true ex_stop_state).2 = none ∧
     (stop true ex_stop_state).1.stopFlagSet = true ∧
     (stop true ex_stop_state).1.cameraCloses = ex_stop_state.cameraCloses + 1 ∧
     (stop true ex_stop_state).1.camera = none ∧
     (stop true (stop true ex_stop_state).1).2.isSome = true ∧
     (stop true (stop true ex_stop_state).1).1.stopFlagSet = true ∧
     (stop true (stop true ex_stop_state).1).1.cameraCloses = ex_stop_state.cameraCloses + 1) :=
  ⟨by decide, stop_twice_amended ex_stop_state (by decide)⟩

/-! ## Capture-loop fault recovery -/

/-- Counterexample to claim C5: a fault during the frame pull whose
recovery reinitialisation itself raises terminates the capture loop even
though `stop()` was never called. -/
theorem run_loop_fault_counterexample :
    ex_crash_env.stopRequested = false ∧
    run_loop [ex_crash_env] ex_loop_state
      = RunResult.crashed "exception raised inside initialise_picamera"
          { ex_loop_state with errorsLogged := 1 } := by
  decide

/-- Claim C5 as amended: an exception while pulling or converting a frame
is caught, logged and answered by a camera reinitialisation after which the
loop resumes; as long as every such reinitialisation succeeds (and no
`KeyboardInterrupt` arrives), no fault terminates the loop.  A fault raised
by the reinitialisation itself, however, propagates and terminates the
loop. -/
theorem run_loop_recovery_amended (events : List LoopEnv) (s : LoopState)
    (hrec : ∀ e ∈ events, e.pull = PullEvent.exc → e.reinitOk = true)
    (hkb : ∀ e ∈ events, e.pull ≠ PullEvent.keyboard) :
    (∀ err s1, run_loop events s ≠ RunResult.crashed err s1) ∧
    (∀ e s0, e.pull = PullEvent.exc → e.reinitOk = true →
      run_iteration e s0
        = IterResult.next { s0 with errorsLogged := s0.errorsLogged + 1,
                                    sessionGen := s0.sessionGen + 1 }) := by
  constructor
  · revert hrec hkb
    induction events generalizing s with
    | nil =>
      intro _ _ err s1 hcontra
      simp [run_loop] at hcontra
    | cons e rest ih =>
      intro hrec hkb err s1 hcontra
      have hrecr : ∀ x ∈ rest, x.pull = PullEvent.exc → x.reinitOk = true :=
        fun x hx => hrec x (List.mem_cons_of_mem _ hx)
      have hkbr : ∀ x ∈ rest, x.pull ≠ PullEvent.keyboard :=
        fun x hx => hkb x (List.mem_cons_of_mem _ hx)
      by_cases hstop : e.stopRequested = true
      · simp [run_loop, hstop] at hcontra
      · cases hpull : e.pull with
        | frame img =>
          simp only [run_loop, run_iteration, hstop, hpull, if_neg,
            Bool.false_eq_true, if_false] at hcontra
          exact ih _ hrecr hkbr err s1 hcontra
        | exc =>
          have hok := hrec e (List.mem_cons_self e rest) hpull
          simp only [run_loop, run_iteration, hstop, hpull, hok,
            Bool.false_eq_true, if_false, if_true] at hcontra
          exact ih _ hrecr hkbr err s1 hcontra
        | keyboard => exact hkb e (List.mem_cons_self e rest) hpull
  · intro e s0 hpull hok
    simp [run_iteration, hpull, hok]

/-- Witness at a concrete one-iteration trace whose pull faults and whose
reinitialisation succeeds. -/
theorem run_loop_recovery_amended_witness :
    (∀ e ∈ [ex_recover_env], e.pull = PullEvent.exc → e.reinitOk = true) ∧
    (∀ e ∈ [ex_recover_env], e.pull ≠ PullEvent.keyboard) ∧
    ((∀ err s1, run_loop [ex_recover_env] ex_loop_state ≠ RunResult.crashed err s1) ∧
     (∀ e s0, e.pull = PullEvent.exc → e.reinitOk = true →
       run_iteration e s0
         = IterResult.next { s0 with errorsLogged := s0.errorsLogged + 1,
                                     sessionGen := s0.sessionGen + 1 })) :=
  ⟨by decide, by decide,
   run_loop_recovery_amended [ex_recover_env] ex_loop_state (by decide) (by decide)⟩

/-! ## Autofocus routine -/

/-- Claim C6: with autofocus enabled, `run_autofocus` triggers one focus
cycle, waits at 1-second intervals at most 5 times, and reports success or
timeout according to the cycle result; the routine is a total function of
the cycle outcome — it raises nothing to the caller. -/
theorem run_autofocus_reports (c : Bool) :
    (run_autofocus true c).cycleTriggered = true ∧
    (run_autofocus true c).report = some c ∧
    (run_autofocus true c).sleeps = (if c then 0 else 5) ∧
    (run_autofocus true c).sleeps ≤ 5 := by
  cases c <;> decide

/-! ## Circular video buffer capacity -/

/-- Claim C7: the circular buffer capacity is the integer truncation of
`frame_rate * (video_duration_before_motion + video_duration_after_motion + 0.5)`;
for frame rate 20, 5 s before and 3 s after, that is 170 frame slots. -/
theorem video_buffer_size_capacity :
    video_buffer_size 20 5 3 = pyInt (20 * (5 + 3 + 0.5)) ∧
    video_buffer_size 20 5 3 = 170 := by
  constructor
  · rfl
  · norm_num [video_buffer_size, pyInt]

/-! ## Startup error classification -/

/-- Claim C8 evaluated at its failing input: a startup exception whose
message contains "Camera is not enabled", with the camera-interface probe
reporting enabled, does not surface a `CameraNotFoundException`: the
classification expression `isinstance(e)` itself raises a `TypeError`,
which propagates uncaught. -/
theorem startup_classification_crashes :
    handle_startup_exception
      { kind := ExcKind.generic,
        message := "RuntimeError: Camera is not enabled, check the interface configuration" }
      "1"
      = Except.error "TypeError: isinstance expected 2 arguments, got 1" := rfl

/-! ## Preview frame access -/

/-- Claim C9: before any frame is published `get_md_image` returns `None`
without raising and `get_image_binary` is undefined (its encode raises);
once a frame is published, `get_md_image` returns a fresh copy at a new
address whose contents equal the live frame, and writing through the
returned copy leaves the live frame unchanged for later readers. -/
theorem get_md_image_snapshot (m : FrameMem) :
    (m.slot = none →
      get_md_image m = (none, m) ∧
      (get_image_binary m).1 = Except.error "cv2.error: imencode received an empty input") ∧
    (∀ i, m.slot = some i → i < m.bufs.length →
      (get_md_image m).1 = some m.bufs.length ∧
      m.bufs.length ≠ i ∧
      (get_md_image m).2.slot = m.slot ∧
      readBuf (get_md_image m).2 m.bufs.length = readBuf m i ∧
      (∀ k v, readBuf (writeBuf (get_md_image m).2 m.bufs.length k v) i = readBuf m i)) := by
  constructor
  · intro h
    constructor
    · simp [get_md_image, h]
    · simp [get_image_binary, get_md_image, h, imencode]
  · intro i hslot hi
    refine ⟨?_, by omega, ?_, ?_, ?_⟩
    · simp [get_md_image, hslot]
    · simp [get_md_image, hslot]
    · simp only [get_md_image, hslot, readBuf]
      exact getD_append_length m.bufs (m.bufs.getD i []) []
    · intro k v
      simp only [get_md_image, hslot, readBuf, writeBuf]
      rw [getD_set_of_ne _ _ _ _ _ (by omega)]
      exact getD_append_of_lt m.bufs _ [] i hi

/-- Witness for the snapshot claim at a concrete published frame. -/
theorem get_md_image_snapshot_witness :
    ex_frame_mem.slot = some 0 ∧ 0 < ex_frame_mem.bufs.length ∧
    ((get_md_image ex_frame_mem).1 = some ex_frame_mem.bufs.length ∧
     ex_frame_mem.bufs.length ≠ 0 ∧
     (get_md_image ex_frame_mem).2.slot = ex_frame_mem.slot ∧
     readBuf (get_md_image ex_frame_mem).2 ex_frame_mem.bufs.length = readBuf ex_frame_mem 0 ∧
     (∀ k v, readBuf (writeBuf (get_md_image ex_frame_mem).2 ex_frame_mem.bufs.length k v) 0
        = readBuf ex_frame_mem 0)) :=
  ⟨by decide, by decide,
   (get_md_image_snapshot ex_frame_mem).2 0 (by decide) (by decide)⟩

end Naturewatch
